import Mathlib

/-!
Verification of `src/NeuroML/HumanCell/postprocess_cell.py`.

The script loads a morphology-only NeuroML document, classifies its
auto-generated `filament_<docid>_<index>` segment groups into the four
primary anatomical groups via hard-coded index tables, attaches passive
properties and a fixed catalogue of channel-density descriptors (uniform
and path-length-dependent), and writes the assembled document back out.

The embedding below translates the script's data and control flow into
plain Lean definitions: the loaded document becomes an explicit structure,
the in-place mutations become a pure document-to-document function, and
the two path-length-dependent conductance value strings become rational /
real functions.  The external libraries (libNeuroML / pyneuroml) are the
trusted serializer and object-model boundary; their operations used here
(append a segment group, append a channel density, write then read a file)
are modelled by list appends and, for the file round trip, the identity on
documents.
-/

namespace HumanL5

/-- `list(range(a, b + 1))` as written in the source's index tables,
as a list of Python integers. -/
def pyrange (a b : Nat) : List Int :=
  (List.range' a (b + 1 - a)).map (fun n => (n : Int))

/-- Somatic segment indices, postprocess_cell.py lines 62-68. -/
def soma_segs : List Int :=
  pyrange 0 6 ++ pyrange 9 10 ++ [14] ++ pyrange 18 21 ++ [32]

/-- Axonal segment indices, line 69. -/
def axonal_segs : List Int := [13]

/-- Apical dendrite segment indices, lines 70-79. -/
def apical_segs : List Int :=
  [7, 15, 16] ++ pyrange 24 27 ++ pyrange 37 44 ++ pyrange 59 66 ++
    pyrange 85 94 ++ pyrange 109 114 ++ pyrange 123 128 ++ pyrange 131 210

/-- Basal dendrite segment indices, lines 80-89.  Note the literal `2` in
the first sub-list, transcribed exactly as the source writes it. -/
def basal_segs : List Int :=
  [8, 11, 2, 17, 22, 23] ++ pyrange 28 31 ++ pyrange 33 36 ++
    pyrange 45 58 ++ pyrange 67 84 ++ pyrange 95 108 ++ pyrange 115 122 ++
    [129, 130]

/-! ### The classification loop's string handling

Python string operations used at lines 95-97 (`str.startswith`,
`str.split("_")`, `int(...)`), modelled character by character so that
every definition evaluates inside the kernel. -/

/-- Python `s.split(sep)` for a one-character separator: splits at every
occurrence, keeping empty pieces, and maps the empty string to `[""]`. -/
def split_char (sep : Char) : List Char → List (List Char)
  | [] => [[]]
  | c :: rest =>
    let r := split_char sep rest
    if c = sep then [] :: r
    else
      match r with
      | [] => [[c]]
      | h :: t => (c :: h) :: t

/-- Python `s.startswith(p)`. -/
def starts_with_chars : List Char → List Char → Bool
  | _, [] => true
  | [], _ :: _ => false
  | c :: s, p :: ps => c = p && starts_with_chars s ps

/-- The numeric value of a decimal digit character, if it is one. -/
def py_digit? (c : Char) : Option Nat :=
  if c.isDigit then some (c.toNat - 48) else none

/-- All-decimal-digit string to a natural number; `none` when empty or when
a character is not a digit. -/
def digits_to_nat? (cs : List Char) : Option Nat :=
  if cs.isEmpty then none
  else cs.foldl (fun acc c => acc.bind
    (fun a => (py_digit? c).map (fun d => 10 * a + d))) (some 0)

/-- Python `int(s)` restricted to the forms the identifiers can carry: an
optional leading minus sign followed by decimal digits.  `none` models the
`ValueError` that `int` raises on anything else. -/
def py_int? (cs : List Char) : Option Int :=
  match cs with
  | '-' :: rest => (digits_to_nat? rest).map (fun n => -(n : Int))
  | _ => (digits_to_nat? cs).map (fun n => (n : Int))

/-- The two exceptions the loop body at lines 95-104 can raise:
`sg.id.split("_")[2]` raises IndexError when there is no third piece,
and `int(sg_index)` raises ValueError when the piece is not an integer. -/
inductive PyError where
  | indexError
  | valueError
deriving DecidableEq, Repr

/-- The parsing done by one iteration of the classification loop,
lines 95-97: ids starting with `"filament"` have their third
underscore-separated piece parsed as the segment index; other ids are
passed over (`ok none`).  An id that starts with `"filament"` but has no
parseable third piece raises (`error`). -/
def parse_filament_index (sgid : String) : Except PyError (Option Int) :=
  let cs := sgid.data
  if starts_with_chars cs "filament".data then
    match (split_char '_' cs).get? 2 with
    | none => Except.error PyError.indexError
    | some piece =>
      match py_int? piece with
      | none => Except.error PyError.valueError
      | some n => Except.ok (some n)
  else Except.ok none

/-! ### The path-length-dependent conductance expressions

The three `InhomogeneousValue` strings at lines 280, 304 and 327, read as
functions of the path-length variable `p`.  The calcium expressions use
only rational constants and the step function, so they live in `ℚ`; the
Ih expression uses `exp`, so it lives in `ℝ`. -/

/-- The NEURON exporter's Heaviside step function referenced by the
source comments at lines 297-300: 1 on a non-negative argument, else 0. -/
def H (x : ℚ) : ℚ := if 0 ≤ x then 1 else 0

/-- `"1E8 * 0.00099839 * 1E-4 * (1 + (99 * (H(p - 360) * H(600 - p))))"`,
the Ca_LVAst apical conductance density (S/m²), line 304. -/
def gCaLVA (p : ℚ) : ℚ :=
  1e8 * 0.00099839 * 1e-4 * (1 + (99 * (H (p - 360) * H (600 - p))))

/-- `"1E8 * 5.6938e-09 * 1E-4 * (1 + (9 * (H(p - 360) * H(600 - p))))"`,
the Ca_HVA apical conductance density (S/m²), line 327. -/
def gCaHVA (p : ℚ) : ℚ :=
  1e8 * 5.6938e-9 * 1e-4 * (1 + (9 * (H (p - 360) * H (600 - p))))

/-- The Ca_LVAst baseline: the somatic literal `0.00099839` S/cm²
(line 219) times the written conversion factor `1E8 * 1E-4`. -/
def caLVA_baseline : ℚ := 1e8 * 0.00099839 * 1e-4

/-- The Ca_HVA baseline: the somatic literal `5.6938e-09` S/cm²
(line 210) times the written conversion factor `1E8 * 1E-4`. -/
def caHVA_baseline : ℚ := 1e8 * 5.6938e-9 * 1e-4

/-- `"5.135E-01 * ((2.087 * exp( 3.6161 * (p/1000))) - 0.8696)"`, the Ih
apical conductance density (S/m²), line 280. -/
noncomputable def gIh (p : ℝ) : ℝ :=
  5.135e-1 * ((2.087 * Real.exp (3.6161 * (p / 1000))) - 0.8696)

/-! ### The NeuroML object graph

The slice of the libNeuroML object model the script touches, with one
opaque string field per structure standing for the loaded content the
script never reads or writes. -/

/-- An `<include segmentGroups="..."/>` member of a segment group. -/
structure Include where
  segment_groups : String
deriving DecidableEq, Repr

/-- The `InhomogeneousParameter` built at lines 250-258, with the
`ProximalDetails` translation start folded in as its fourth field. -/
structure InhomogeneousParameter where
  id : String
  variable_ : String
  metric : String
  translation_start : String
deriving DecidableEq, Repr

/-- A segment group of the morphology. -/
structure SegmentGroup where
  id : String
  neuro_lex_id : String
  notes : String
  includes : List Include
  inhomogeneous_parameters : List InhomogeneousParameter
deriving DecidableEq, Repr

/-- A uniform channel density added by `add_channel_density`. -/
structure ChannelDensity where
  id : String
  ion_channel : String
  cond_density : String
  erev : String
  group_id : String
  ion : String
  ion_chan_def_file : String
deriving DecidableEq, Repr

/-- A `ChannelDensityNernst` added by `add_channel_density_v`
(lines 205-222): no reversal potential literal. -/
structure ChannelDensityNernst where
  id : String
  ion_channel : String
  cond_density : String
  segment_groups : String
  ion : String
  ion_chan_def_file : String
deriving DecidableEq, Repr

/-- The `InhomogeneousValue` carried by a variable parameter. -/
structure InhomogeneousValue where
  inhomogeneous_parameters : String
  value : String
deriving DecidableEq, Repr

/-- The `VariableParameter` of a non-uniform channel density. -/
structure VariableParameter where
  parameter : String
  segment_groups : String
  inhomogeneous_values : List InhomogeneousValue
deriving DecidableEq, Repr

/-- A `ChannelDensityNonUniform` / `ChannelDensityNonUniformNernst`;
`erev` is the empty string on the Nernst variants, which carry none. -/
structure ChannelDensityNonUniform where
  id : String
  ion_channel : String
  ion : String
  erev : String
  variable_parameters : List VariableParameter
deriving DecidableEq, Repr

/-- The intracellular `Species` added at lines 197-203. -/
structure Species where
  id : String
  concentration_model : String
  ion : String
  initial_concentration : String
  initial_ext_concentration : String
  segment_groups : String
deriving DecidableEq, Repr

/-- The biophysical property lists the script appends to. -/
structure BiophysicalProperties where
  channel_densities : List ChannelDensity
  channel_density_nernsts : List ChannelDensityNernst
  channel_density_non_uniforms : List ChannelDensityNonUniform
  channel_density_non_uniform_nernsts : List ChannelDensityNonUniform
  specific_capacitances : List (String × String)
  resistivities : List (String × String)
  init_memb_potentials : List String
  species : List Species
deriving DecidableEq, Repr

/-- A morphology-only document's cell has every biophysics list empty. -/
def empty_biophys : BiophysicalProperties := ⟨[], [], [], [], [], [], [], []⟩

/-- A cell: id, notes, the morphology's segment groups, the rest of the
morphology (segments and their geometry, never touched) as opaque
content, and the biophysical properties. -/
structure Cell where
  id : String
  notes : String
  segment_groups : List SegmentGroup
  other_morphology : String
  biophys : BiophysicalProperties
deriving DecidableEq, Repr

/-- The loaded NeuroML document: its cells, networks, file-level includes
and, opaquely, any further content the script never touches. -/
structure NeuroMLDocument where
  cells : List Cell
  networks : List String
  includes : List String
  other_content : String
deriving DecidableEq, Repr

/-! ### The assembly pipeline

`post_process_cell`, lines 19-352, as a pure function from the loaded
document (plus the cell name) to the written document; `none` models a
run that raises before reaching `write_neuroml2_file` and so leaves no
output.  `optimise_segment_groups` / `reorder_segment_groups` are calls
into the trusted external library and are modelled as the identity. -/

/-- The literature-reference string appended to the cell's notes, line 36. -/
def reference_note : String :=
  ". Reference: Scott Rich, Homeira Moradi Chameh, Vladislav Sekulic, Taufik A Valiante, Frances K Skinner, Modeling Reveals Human-Rodent Differences in H-Current Kinetics Influencing Resonance in Cortical Layer 5 Neurons, Cerebral Cortex, Volume 31, Issue 2, February 2021, Pages 845-872, https://doi.org/10.1093/cercor/bhaa261"

/-- The four conventional groups `setup_default_segment_groups` creates
when absent, lines 39-47, with the library's NeuroLex ids. -/
def default_group_specs : List SegmentGroup :=
  [⟨"all", "", "", [], []⟩,
   ⟨"soma_group", "GO:0043025", "", [], []⟩,
   ⟨"dendrite_group", "GO:0030425", "", [], []⟩,
   ⟨"axon_group", "GO:0030424", "", [], []⟩]

/-- `add_segment_group("basal_dendrite_group", ...)`, lines 50-54. -/
def basal_group_new : SegmentGroup :=
  ⟨"basal_dendrite_group", "GO:0030425", "Basal dendrites", [], []⟩

/-- `add_segment_group("apical_dendrite_group", ...)`, lines 55-59. -/
def apical_group_new : SegmentGroup :=
  ⟨"apical_dendrite_group", "GO:0030425", "Apical dendrite_group", [], []⟩

/-- Append a conventional group unless one with its id already exists
(the create-if-missing step of `setup_default_segment_groups`). -/
def add_if_missing (acc : List SegmentGroup) (g : SegmentGroup) :
    List SegmentGroup :=
  if acc.any (fun h => h.id = g.id) then acc else acc ++ [g]

/-- Lines 39-59: ensure the four conventional groups, then append the
basal and the apical group (`add_segment_group` appends, so the apical
group is always the morphology's last segment group afterwards). -/
def setup_segment_groups (gs : List SegmentGroup) : List SegmentGroup :=
  (default_group_specs.foldl add_if_missing gs) ++
    [basal_group_new, apical_group_new]

/-- The includes one primary group receives from the classification loop:
one `<include>` per group id whose parsed index sits in `table`, in loop
order, lines 92-104. -/
def includesFor (table : List Int) (gs : List SegmentGroup) : List Include :=
  gs.filterMap (fun g =>
    match parse_filament_index g.id with
    | Except.ok (some n) =>
        if table.contains n then some ⟨g.id⟩ else none
    | _ => none)

/-- True when some iteration of the classification loop raises, i.e. a
group id starts with `"filament"` but has no parseable index. -/
def classification_fails (gs : List SegmentGroup) : Bool :=
  gs.any (fun g =>
    match parse_filament_index g.id with
    | Except.error _ => true
    | Except.ok _ => false)

/-- The effect of the classification loop on one group: the soma, axon,
apical and basal groups receive their include lists; every other group is
untouched. -/
def populate_one (gs : List SegmentGroup) (g : SegmentGroup) : SegmentGroup :=
  if g.id = "soma_group" then
    { g with includes := g.includes ++ includesFor soma_segs gs }
  else if g.id = "axon_group" then
    { g with includes := g.includes ++ includesFor axonal_segs gs }
  else if g.id = "apical_dendrite_group" then
    { g with includes := g.includes ++ includesFor apical_segs gs }
  else if g.id = "basal_dendrite_group" then
    { g with includes := g.includes ++ includesFor basal_segs gs }
  else g

/-- The classification loop, lines 92-104, on a morphology whose ids all
parse: each group receives the includes the loop appends to it. -/
def populate_groups (gs : List SegmentGroup) : List SegmentGroup :=
  gs.map (populate_one gs)

/-- Lines 106-108 on one group: the umbrella dendrite group's includes
are reset to exactly the apical group then the basal group. -/
def dendrite_one (g : SegmentGroup) : SegmentGroup :=
  if g.id = "dendrite_group" then
    { g with includes :=
        [⟨"apical_dendrite_group"⟩, ⟨"basal_dendrite_group"⟩] }
  else g

/-- Lines 106-108 on the whole morphology. -/
def set_dendrite_includes (gs : List SegmentGroup) : List SegmentGroup :=
  gs.map dendrite_one

/-- The `InhomogeneousParameter` of lines 250-258. -/
def path_length_param : InhomogeneousParameter :=
  ⟨"PathLengthOverApicDends", "p", "Path Length from root", "0"⟩

/-- Append the path-length parameter to one group's parameter list. -/
def add_param_one (g : SegmentGroup) : SegmentGroup :=
  { g with inhomogeneous_parameters :=
      g.inhomogeneous_parameters ++ [path_length_param] }

/-- Lines 250-258: `sg.add("InhomogeneousParameter", ...)` where `sg` is
the variable left over from the classification loop, i.e. the last
segment group of the morphology.  Appends the parameter to that group. -/
def add_param_to_last (gs : List SegmentGroup) : List SegmentGroup :=
  gs.dropLast ++
    (match gs.getLast? with
     | none => []
     | some g => [add_param_one g])

/-- The id of the loop variable `sg` after the classification loop: the
id of the morphology's last segment group. -/
def last_group_id (gs : List SegmentGroup) : String :=
  match gs.getLast? with
  | none => ""
  | some g => g.id

/-- The whole segment-group stage of the pipeline, lines 39-113 and
250-258. -/
def processed_groups (gs : List SegmentGroup) : List SegmentGroup :=
  add_param_to_last
    (set_dendrite_includes (populate_groups (setup_segment_groups gs)))

/-! ### The biophysics catalogue, lines 117-350, in source order. -/

/-- The thirteen uniform channel densities, in the order the script adds
them: lines 120-127, 136-193, 226-249, 330-337 and 340-347. -/
def assembled_channel_densities : List ChannelDensity :=
  [⟨"pas", "pas", "1.75E-5 S_per_cm2", "-84.395 mV", "all",
      "non_specific", "channels/pas.channel.nml"⟩,
   ⟨"SK_E2_somatic", "SK_E2", "2.4536e-09 S_per_cm2", "-77 mV",
      "soma_group", "k", "channels/SK_E2.channel.nml"⟩,
   ⟨"SKv3_1_somatic", "SKv3_1", "0.04 S_per_cm2", "-77 mV",
      "soma_group", "k", "channels/SKv3_1.channel.nml"⟩,
   ⟨"K_Tst_somatic", "K_Tst", "2e-05 S_per_cm2", "-77 mV",
      "soma_group", "k", "channels/K_Tst.channel.nml"⟩,
   ⟨"K_Pst_somatic", "K_Pst", "0.065 S_per_cm2", "-77 mV",
      "soma_group", "k", "channels/K_Pst.channel.nml"⟩,
   ⟨"Ih_somatic", "Ih", "5.135E-05 S_per_cm2", "-49.85 mV",
      "soma_group", "hcn", "channels/Ih.channel.nml"⟩,
   ⟨"NaTa_t_somatic", "NaTa_t", "2.1 S_per_cm2", "50 mV",
      "soma_group", "na", "channels/NaTa_t.channel.nml"⟩,
   ⟨"Nap_Et2_somatic", "Nap_Et2", "1E-6 S_per_cm2", "50 mV",
      "soma_group", "na", "channels/Nap_Et2.channel.nml"⟩,
   ⟨"SK_E2_apical", "SK_E2", "2.4536e-09 S_per_cm2", "-77 mV",
      "apical_dendrite_group", "k", "channels/SK_E2.channel.nml"⟩,
   ⟨"SKv3_1_apical", "SKv3_1", "0.04 S_per_cm2", "-77 mV",
      "apical_dendrite_group", "k", "channels/SKv3_1.channel.nml"⟩,
   ⟨"Im_apical", "Im", ".0002 S_per_cm2", "-77 mV",
      "apical_dendrite_group", "k", "channels/Im.channel.nml"⟩,
   ⟨"NaTa_t_apical", "NaTa_t", "0.001 S_per_cm2", "50 mV",
      "apical_dendrite_group", "na", "channels/NaTa_t.channel.nml"⟩,
   ⟨"Ih_basal", "Ih", "5.135E-05 S_per_cm2", "-49.85 mV",
      "basal_dendrite_group", "hcn", "channels/Ih.channel.nml"⟩]

/-- The two somatic Nernst calcium densities, lines 205-222. -/
def assembled_nernsts : List ChannelDensityNernst :=
  [⟨"Ca_HVA_somatic", "Ca_HVA", "5.6938e-09 S_per_cm2", "soma_group",
      "ca", "channels/Ca_HVA.channel.nml"⟩,
   ⟨"Ca_LVAst_somatic", "Ca_LVAst", "0.00099839 S_per_cm2", "soma_group",
      "ca", "channels/Ca_LVAst.channel.nml"⟩]

/-- Lines 260-281: the non-uniform Ih density, whose variable parameter
is bound over `sg.id` — the id of the loop's final segment group. -/
def Ih_nonuniform (sgid : String) : ChannelDensityNonUniform :=
  ⟨"Ih_apical", "Ih", "hcn", "-49.85 mV",
   [⟨"condDensity", sgid,
     [⟨"PathLengthOverApicDends",
       "5.135E-01 * ((2.087 * exp( 3.6161 * (p/1000))) - 0.8696)"⟩]⟩]⟩

/-- Lines 283-305: the non-uniform Ca_LVAst Nernst density. -/
def Ca_LVA_nonuniform (sgid : String) : ChannelDensityNonUniform :=
  ⟨"Ca_LVA_apic", "Ca_LVAst", "ca", "",
   [⟨"condDensity", sgid,
     [⟨"PathLengthOverApicDends",
       "1E8 * 0.00099839 * 1E-4 * (1 + (99 * (H(p - 360) * H(600 - p))))"⟩]⟩]⟩

/-- Lines 306-328: the non-uniform Ca_HVA Nernst density. -/
def Ca_HVA_nonuniform (sgid : String) : ChannelDensityNonUniform :=
  ⟨"Ca_HVA_apic", "Ca_HVA", "ca", "",
   [⟨"condDensity", sgid,
     [⟨"PathLengthOverApicDends",
       "1E8 * 5.6938e-09 * 1E-4 * (1 + (9 * (H(p - 360) * H(600 - p))))"⟩]⟩]⟩

/-- The calcium species of lines 197-203. -/
def ca_species : Species :=
  ⟨"ca", "CaDynamics_E2_NML2__decay460__gamma5_01Emin4", "ca",
   "5.0E-11 mol_per_cm3", "2.0E-6 mol_per_cm3", "soma_group"⟩

/-- Everything lines 117-350 append to the cell's biophysics, given the
id the three variable parameters are bound over. -/
def assemble_biophys (sgid : String) (b : BiophysicalProperties) :
    BiophysicalProperties :=
  { channel_densities := b.channel_densities ++ assembled_channel_densities,
    channel_density_nernsts := b.channel_density_nernsts ++ assembled_nernsts,
    channel_density_non_uniforms :=
      b.channel_density_non_uniforms ++ [Ih_nonuniform sgid],
    channel_density_non_uniform_nernsts :=
      b.channel_density_non_uniform_nernsts ++
        [Ca_LVA_nonuniform sgid, Ca_HVA_nonuniform sgid],
    specific_capacitances := b.specific_capacitances ++
      [("1.5967 uF_per_cm2", "all"), ("1 uF_per_cm2", "soma_group")],
    resistivities := b.resistivities ++ [("0.49573 kohm_cm", "all")],
    init_memb_potentials := b.init_memb_potentials ++ ["-80mV"],
    species := b.species ++ [ca_species] }

/-- The two file-level includes added at lines 117-118. -/
def assembled_includes : List String :=
  ["channels/CaDynamics_E2_NML2.nml",
   "channels/CaDynamics_E2_NML2__decay460__gamma5_01Emin4.nml"]

/-- Lines 33-350 on the document's first cell. -/
def processed_cell (cellname : String) (c : Cell) : Cell :=
  { id := cellname,
    notes := c.notes ++ reference_note,
    segment_groups := processed_groups c.segment_groups,
    other_morphology := c.other_morphology,
    biophys := assemble_biophys
      (last_group_id (setup_segment_groups c.segment_groups)) c.biophys }

/-- `post_process_cell`, lines 19-352: the written document as a function
of the cell name and the loaded document.  `none` when the loaded
document has no cell (line 33 raises) or when the classification loop
raises on a malformed `filament` id, in which case no file is written. -/
def post_process_cell (cellname : String) (celldoc : NeuroMLDocument) :
    Option NeuroMLDocument :=
  match celldoc.cells with
  | [] => none
  | cell :: rest =>
    if classification_fails (setup_segment_groups cell.segment_groups) then
      none
    else
      some { cells := processed_cell cellname cell :: rest,
             networks := [],
             includes := celldoc.includes ++ assembled_includes,
             other_content := celldoc.other_content }

/-- Modelled from the spec: the serializer / loader boundary
(`write_neuroml2_file` then `read_neuroml2_file`, external pyneuroml /
libNeuroML code absent from this repository).  Section 4.5 of the spec
treats write-document / read-document as a trusted external boundary and
section 8 asserts the round trip returns exactly the literals supplied,
so writing then loading is modelled as the identity on documents. -/
def write_then_load (d : NeuroMLDocument) : NeuroMLDocument := d

/-- Modelled from the spec: the bytes `write_neuroml2_file` (external
pyneuroml code absent from this repository) puts in the output file.
Section 5 of the spec makes each run a deterministic function of the
input, so the file's bytes are modelled as a fixed rendering of the
document value. -/
def file_bytes (d : NeuroMLDocument) : String := (repr d).pretty

/-- Re-extract a uniform conductance descriptor for a (region, channel)
pair from a cell, as the spec's round-trip property reads it back. -/
def find_channel_density (c : Cell) (group ch : String) :
    Option ChannelDensity :=
  c.biophys.channel_densities.find?
    (fun cd => cd.group_id == group && cd.ion_channel == ch)

/-! ### Concrete documents used to evaluate the pipeline -/

/-- A one-group morphology whose segment index is 2, the index that sits
in two primary tables. -/
def demo_groups : List SegmentGroup :=
  [⟨"filament_100000042_2", "", "", [], []⟩]

/-- A small loaded morphology-only document: four filament groups (one
soma, one apical, one basal, one axonal index), a network to be cleared,
and untouched extra content. -/
def example_cell : Cell :=
  { id := "HL5PC_morph",
    notes := "Morphology exported from reconstruction",
    segment_groups :=
      [⟨"filament_100000042_0", "", "", [], []⟩,
       ⟨"filament_100000042_7", "", "", [], []⟩,
       ⟨"filament_100000042_8", "", "", [], []⟩,
       ⟨"filament_100000042_13", "", "", [], []⟩],
    other_morphology := "segment geometry",
    biophys := empty_biophys }

/-- The loaded document around `example_cell`. -/
def example_doc : NeuroMLDocument :=
  { cells := [example_cell],
    networks := ["net0"],
    includes := [],
    other_content := "document metadata" }

/-- The document the pipeline writes for `example_doc`. -/
def example_out : NeuroMLDocument :=
  { cells := [processed_cell "HL5PC" example_cell],
    networks := [],
    includes := assembled_includes,
    other_content := "document metadata" }

/-- A document whose single segment group id starts with `"filament"`
but has no third underscore-separated piece. -/
def bad_id_doc : NeuroMLDocument :=
  { cells := [{ id := "c0", notes := "",
                segment_groups := [⟨"filament_bad", "", "", [], []⟩],
                other_morphology := "", biophys := empty_biophys }],
    networks := [], includes := [], other_content := "" }

/-! ### Structural lemmas about the pipeline -/

lemma mem_add_if_missing {x : SegmentGroup} {acc : List SegmentGroup}
    {g : SegmentGroup} (hx : x ∈ add_if_missing acc g) : x ∈ acc ∨ x = g := by
  unfold add_if_missing at hx
  split at hx
  · exact Or.inl hx
  · rcases List.mem_append.mp hx with h | h
    · exact Or.inl h
    · exact Or.inr (List.mem_singleton.mp h)

lemma subset_add_if_missing {x : SegmentGroup} {acc : List SegmentGroup}
    (g : SegmentGroup) (hx : x ∈ acc) : x ∈ add_if_missing acc g := by
  unfold add_if_missing
  split
  · exact hx
  · exact List.mem_append.mpr (Or.inl hx)

lemma exists_id_add_if_missing (acc : List SegmentGroup) (g : SegmentGroup) :
    ∃ x ∈ add_if_missing acc g, x.id = g.id := by
  unfold add_if_missing
  split_ifs with h
  · rcases List.any_eq_true.mp h with ⟨x, hx, hid⟩
    exact ⟨x, hx, of_decide_eq_true hid⟩
  · exact ⟨g, List.mem_append.mpr (Or.inr (List.mem_singleton.mpr rfl)), rfl⟩

lemma mem_foldl_add_if_missing :
    ∀ (ds acc : List SegmentGroup) (x : SegmentGroup),
      x ∈ ds.foldl add_if_missing acc → x ∈ acc ∨ x ∈ ds := by
  intro ds
  induction ds with
  | nil => intro acc x hx; exact Or.inl hx
  | cons d ds ih =>
    intro acc x hx
    rcases ih _ x hx with h | h
    · rcases mem_add_if_missing h with h | h
      · exact Or.inl h
      · exact Or.inr (h ▸ List.mem_cons_self d ds)
    · exact Or.inr (List.mem_cons_of_mem d h)

lemma foldl_add_if_missing_mono :
    ∀ (ds acc : List SegmentGroup) (x : SegmentGroup),
      x ∈ acc → x ∈ ds.foldl add_if_missing acc := by
  intro ds
  induction ds with
  | nil => intro acc x hx; exact hx
  | cons d ds ih => intro acc x hx; exact ih _ x (subset_add_if_missing d hx)

lemma exists_id_foldl_add_if_missing :
    ∀ (ds acc : List SegmentGroup) (g : SegmentGroup), g ∈ ds →
      ∃ x ∈ ds.foldl add_if_missing acc, x.id = g.id := by
  intro ds
  induction ds with
  | nil => intro acc g hg; cases hg
  | cons d ds ih =>
    intro acc g hg
    rcases List.mem_cons.mp hg with h | h
    · subst h
      rcases exists_id_add_if_missing acc g with ⟨x, hx, hid⟩
      exact ⟨x, foldl_add_if_missing_mono ds _ x hx, hid⟩
    · exact ih _ g h

lemma populate_one_id (gs : List SegmentGroup) (g : SegmentGroup) :
    (populate_one gs g).id = g.id := by
  unfold populate_one
  split_ifs <;> rfl

lemma populate_one_params (gs : List SegmentGroup) (g : SegmentGroup) :
    (populate_one gs g).inhomogeneous_parameters =
      g.inhomogeneous_parameters := by
  unfold populate_one
  split_ifs <;> rfl

lemma dendrite_one_id (g : SegmentGroup) : (dendrite_one g).id = g.id := by
  unfold dendrite_one
  split_ifs <;> rfl

lemma dendrite_one_params (g : SegmentGroup) :
    (dendrite_one g).inhomogeneous_parameters =
      g.inhomogeneous_parameters := by
  unfold dendrite_one
  split_ifs <;> rfl

lemma dendrite_one_includes_of_id {g : SegmentGroup}
    (h : g.id = "dendrite_group") :
    (dendrite_one g).includes =
      [⟨"apical_dendrite_group"⟩, ⟨"basal_dendrite_group"⟩] := by
  unfold dendrite_one
  rw [if_pos h]

lemma transform_id (s : List SegmentGroup) (g : SegmentGroup) :
    ((dendrite_one ∘ populate_one s) g).id = g.id := by
  show (dendrite_one (populate_one s g)).id = g.id
  rw [dendrite_one_id, populate_one_id]

lemma transform_params (s : List SegmentGroup) (g : SegmentGroup) :
    ((dendrite_one ∘ populate_one s) g).inhomogeneous_parameters =
      g.inhomogeneous_parameters := by
  show (dendrite_one (populate_one s g)).inhomogeneous_parameters = _
  rw [dendrite_one_params, populate_one_params]

lemma map_setup (gs : List SegmentGroup) (f : SegmentGroup → SegmentGroup) :
    (setup_segment_groups gs).map f =
      ((default_group_specs.foldl add_if_missing gs).map f ++
          [f basal_group_new]) ++ [f apical_group_new] := by
  show ((default_group_specs.foldl add_if_missing gs) ++
      [basal_group_new, apical_group_new]).map f = _
  simp [List.map_append, List.append_assoc]

lemma add_param_to_last_concat (l : List SegmentGroup) (a : SegmentGroup) :
    add_param_to_last (l ++ [a]) = l ++ [add_param_one a] := by
  unfold add_param_to_last
  rw [List.dropLast_concat, List.getLast?_concat]

lemma processed_groups_decomp (gs : List SegmentGroup) :
    processed_groups gs =
      ((default_group_specs.foldl add_if_missing gs).map
          (dendrite_one ∘ populate_one (setup_segment_groups gs)) ++
        [(dendrite_one ∘ populate_one (setup_segment_groups gs))
            basal_group_new]) ++
      [add_param_one ((dendrite_one ∘ populate_one (setup_segment_groups gs))
          apical_group_new)] := by
  unfold processed_groups set_dendrite_includes populate_groups
  rw [List.map_map, map_setup, add_param_to_last_concat]

lemma last_group_id_setup (gs : List SegmentGroup) :
    last_group_id (setup_segment_groups gs) = "apical_dendrite_group" := by
  unfold last_group_id
  have h : setup_segment_groups gs =
      ((default_group_specs.foldl add_if_missing gs) ++ [basal_group_new]) ++
        [apical_group_new] := by
    show (default_group_specs.foldl add_if_missing gs) ++
        [basal_group_new, apical_group_new] = _
    simp [List.append_assoc]
  rw [h, List.getLast?_concat]
  rfl

lemma post_process_cell_eq (cellname : String) (celldoc : NeuroMLDocument)
    (cell : Cell) (rest : List Cell)
    (h1 : celldoc.cells = cell :: rest)
    (h2 : classification_fails (setup_segment_groups cell.segment_groups)
        = false) :
    post_process_cell cellname celldoc =
      some { cells := processed_cell cellname cell :: rest,
             networks := [],
             includes := celldoc.includes ++ assembled_includes,
             other_content := celldoc.other_content } := by
  obtain ⟨cs, nets, incs, oth⟩ := celldoc
  dsimp only at h1 ⊢
  subst h1
  simp [post_process_cell, h2]

lemma post_process_cell_inv (cellname : String) (celldoc out : NeuroMLDocument)
    (cell : Cell) (rest : List Cell)
    (h1 : celldoc.cells = cell :: rest)
    (h4 : post_process_cell cellname celldoc = some out) :
    out = { cells := processed_cell cellname cell :: rest,
            networks := [],
            includes := celldoc.includes ++ assembled_includes,
            other_content := celldoc.other_content } := by
  by_cases hcf : classification_fails (setup_segment_groups cell.segment_groups)
      = true
  · obtain ⟨cs, nets, incs, oth⟩ := celldoc
    dsimp only at h1 h4
    subst h1
    simp [post_process_cell, hcf] at h4
  · rw [post_process_cell_eq cellname celldoc cell rest h1
      (Bool.not_eq_true _ ▸ hcf)] at h4
    exact (Option.some_inj.mp h4).symm

lemma default_specs_params :
    ∀ x ∈ default_group_specs, x.inhomogeneous_parameters = [] := by decide

lemma add_param_one_id (g : SegmentGroup) : (add_param_one g).id = g.id := rfl

lemma add_param_one_params (g : SegmentGroup) :
    (add_param_one g).inhomogeneous_parameters =
      g.inhomogeneous_parameters ++ [path_length_param] := rfl

lemma processed_cell_groups (cellname : String) (c : Cell) :
    (processed_cell cellname c).segment_groups =
      processed_groups c.segment_groups := rfl

lemma processed_cell_biophys (cellname : String) (c : Cell) :
    (processed_cell cellname c).biophys =
      assemble_biophys "apical_dendrite_group" c.biophys := by
  show assemble_biophys
      (last_group_id (setup_segment_groups c.segment_groups)) c.biophys = _
  rw [last_group_id_setup]

/-! ### The claims -/

/-- C1: the claim asserts the four primary index tables are pairwise
disjoint.  They are not: segment index 2 lies both in `soma_segs`
(line 63, `range(0, 6 + 1)`) and in `basal_segs` (line 81, the literal
`2` in `[8, 11, 2, 17, 22, 23]`), so a `filament_<docid>_2` group is
included in both the soma group and the basal dendrite group by the
classification loop.  The spec asserts disjointness as a property of the
data and calls a violation a fatal configuration error, index 12 appears
in none of the four tables while 2 appears twice, and the basal literal
sits between 11 and 17 where 12 belongs, so the `2` is a slip in the
code's table: a code bug, witnessed here by evaluating the tables and
the classifier at index 2. -/
theorem C1_soma_basal_tables_overlap :
    (2 : Int) ∈ soma_segs ∧ (2 : Int) ∈ basal_segs ∧
      ¬ (∀ n : Int, n ∈ soma_segs → n ∉ basal_segs) ∧
      includesFor soma_segs demo_groups = [⟨"filament_100000042_2"⟩] ∧
      includesFor basal_segs demo_groups = [⟨"filament_100000042_2"⟩] := by
  refine ⟨by decide, by decide, fun h => h 2 (by decide) (by decide),
    by decide, by decide⟩

/-- C3: the two calcium band expressions (lines 304 and 327) equal
baseline times `1 + k * H(p - 360) * H(600 - p)` with k = 99 (LVA) and
k = 9 (HVA), the baseline being the somatic S/cm² literal times the
written `1E8 * 1E-4` factor; at p = 400 the LVA value is baseline×100,
at p = 300 and p = 700 it is baseline×1, and at the band edges 360 and
600 the combined indicator is 1, giving baseline×100 (LVA) and
baseline×10 (HVA). -/
theorem C3_calcium_band_expressions :
    (∀ p : ℚ, gCaLVA p =
        caLVA_baseline * (1 + 99 * (H (p - 360) * H (600 - p)))) ∧
    (∀ p : ℚ, gCaHVA p =
        caHVA_baseline * (1 + 9 * (H (p - 360) * H (600 - p)))) ∧
    caLVA_baseline = 0.00099839 * 1e4 ∧
    caHVA_baseline = 5.6938e-9 * 1e4 ∧
    (∀ x : ℚ, 0 ≤ x → H x = 1) ∧
    (∀ x : ℚ, x < 0 → H x = 0) ∧
    gCaLVA 400 = caLVA_baseline * 100 ∧
    gCaLVA 300 = caLVA_baseline * 1 ∧
    gCaLVA 700 = caLVA_baseline * 1 ∧
    H (360 - 360) * H (600 - 360) = 1 ∧
    H (600 - 360) * H (600 - 600) = 1 ∧
    gCaLVA 360 = caLVA_baseline * 100 ∧
    gCaLVA 600 = caLVA_baseline * 100 ∧
    gCaHVA 360 = caHVA_baseline * 10 ∧
    gCaHVA 600 = caHVA_baseline * 10 := by
  refine ⟨fun p => by unfold gCaLVA caLVA_baseline; ring,
    fun p => by unfold gCaHVA caHVA_baseline; ring,
    by unfold caLVA_baseline; norm_num,
    by unfold caHVA_baseline; norm_num,
    fun x hx => by simp [H, hx],
    fun x hx => by simp [H, not_le.mpr hx],
    ?_, ?_, ?_, ?_, ?_, ?_, ?_, ?_, ?_⟩ <;>
    norm_num [gCaLVA, gCaHVA, caLVA_baseline, caHVA_baseline, H]

/-- C4: the apical non-uniform Ih expression (line 280) evaluated at
p = 0 equals `5.135E-1 * (2.087 - 0.8696)` exactly (about 0.624 S/m²,
within 0.002 of it), and the expression is strictly monotonically
increasing, in particular for p ≥ 0. -/
theorem C4_Ih_expression_monotone :
    gIh 0 = 5.135e-1 * (2.087 - 0.8696) ∧
    |gIh 0 - 0.624| < 2e-3 ∧
    StrictMono gIh := by
  have h0 : gIh 0 = 5.135e-1 * (2.087 - 0.8696) := by
    unfold gIh
    norm_num [Real.exp_zero]
  refine ⟨h0, ?_, ?_⟩
  · rw [h0, abs_sub_lt_iff]
    constructor <;> norm_num
  · intro a b hab
    unfold gIh
    have hexp : Real.exp (3.6161 * (a / 1000)) <
        Real.exp (3.6161 * (b / 1000)) :=
      Real.exp_lt_exp.mpr (by linarith)
    nlinarith [hexp]

/-- C5 (amended): a segment-group identifier that does not start with
`"filament"` is silently skipped by the classification loop, with no
assignment and no error; but an identifier that starts with
`"filament"` without matching the full `filament_<docid>_<index>`
convention is not skipped: the loop raises on it (see the
counterexample), so the loop is total only over identifiers that do not
start with `"filament"` or that match the convention. -/
theorem C5_non_filament_ids_skipped (sgid : String)
    (h : starts_with_chars sgid.data "filament".data = false) :
    parse_filament_index sgid = Except.ok none := by
  unfold parse_filament_index
  simp [h]

/-- C5 witness: the conventional id `"soma_group"` does not start with
`"filament"` and is skipped. -/
theorem C5_witness :
    starts_with_chars "soma_group".data "filament".data = false ∧
      parse_filament_index "soma_group" = Except.ok none :=
  ⟨rfl, C5_non_filament_ids_skipped "soma_group" rfl⟩

/-- C5 counterexample: `"filament_bad"` does not match the naming
convention, yet the loop does not skip it silently: `split("_")[2]`
raises IndexError, and a run on a document containing such a group id
aborts with no output. -/
theorem C5_counterexample :
    parse_filament_index "filament_bad" = Except.error PyError.indexError ∧
      post_process_cell "HL5PC" bad_id_doc = none :=
  ⟨rfl, rfl⟩

/-- C8: the assembly is deterministic: two runs of the pipeline on the
same cell name and equal loaded documents produce equal written
documents, hence byte-identical output files under the (modelled,
deterministic) serializer. -/
theorem C8_deterministic (cellname : String) (d1 d2 : NeuroMLDocument)
    (h : d1 = d2) :
    post_process_cell cellname d1 = post_process_cell cellname d2 ∧
      (post_process_cell cellname d1).map file_bytes =
        (post_process_cell cellname d2).map file_bytes := by
  subst h
  exact ⟨rfl, rfl⟩

/-- C8 witness: the two runs coincide on the example document. -/
theorem C8_witness :
    post_process_cell "HL5PC" example_doc =
        post_process_cell "HL5PC" example_doc ∧
      (post_process_cell "HL5PC" example_doc).map file_bytes =
        (post_process_cell "HL5PC" example_doc).map file_bytes :=
  C8_deterministic "HL5PC" example_doc example_doc rfl

/-- C2: on a morphology-only input (no group carries an inhomogeneous
parameter yet), the written cell defines the
`PathLengthOverApicDends` parameter (variable `p`, path length from
root) on the apical dendrite group and on no other group, and each of
the three non-uniform descriptors (Ih, Ca_LVAst, Ca_HVA) binds its
variable conductance over that same apical dendrite group. -/
theorem C2_inhomogeneous_param_apical_only (cellname : String)
    (celldoc out : NeuroMLDocument) (cell outcell : Cell)
    (rest outrest : List Cell)
    (h1 : celldoc.cells = cell :: rest)
    (h2 : ∀ g ∈ cell.segment_groups, g.inhomogeneous_parameters = [])
    (h3 : cell.biophys = empty_biophys)
    (h4 : post_process_cell cellname celldoc = some out)
    (h5 : out.cells = outcell :: outrest) :
    (∀ g ∈ outcell.segment_groups, g.inhomogeneous_parameters ≠ [] →
        g.id = "apical_dendrite_group" ∧
          g.inhomogeneous_parameters = [path_length_param]) ∧
    (∃ g ∈ outcell.segment_groups, g.id = "apical_dendrite_group" ∧
        g.inhomogeneous_parameters = [path_length_param]) ∧
    outcell.biophys.channel_density_non_uniforms =
      [Ih_nonuniform "apical_dendrite_group"] ∧
    outcell.biophys.channel_density_non_uniform_nernsts =
      [Ca_LVA_nonuniform "apical_dendrite_group",
        Ca_HVA_nonuniform "apical_dendrite_group"] ∧
    (∀ cd ∈ outcell.biophys.channel_density_non_uniforms ++
        outcell.biophys.channel_density_non_uniform_nernsts,
      ∀ vp ∈ cd.variable_parameters,
        vp.segment_groups = "apical_dendrite_group") := by
  have hout := post_process_cell_inv cellname celldoc out cell rest h1 h4
  subst hout
  dsimp only at h5
  injection h5 with hc hr
  subst hc
  refine ⟨?_, ?_, ?_, ?_, ?_⟩
  · intro g hg hne
    rw [processed_cell_groups, processed_groups_decomp] at hg
    rcases List.mem_append.mp hg with hg | hg
    · rcases List.mem_append.mp hg with hg | hg
      · rcases List.mem_map.mp hg with ⟨x, hx, hfx⟩
        exfalso
        apply hne
        rw [← hfx, transform_params]
        rcases mem_foldl_add_if_missing _ _ _ hx with h | h
        · exact h2 x h
        · exact default_specs_params x h
      · have hgb := List.mem_singleton.mp hg
        subst hgb
        exact absurd (by rw [transform_params]; rfl) hne
    · have hga := List.mem_singleton.mp hg
      subst hga
      constructor
      · rw [add_param_one_id, transform_id]
        rfl
      · rw [add_param_one_params, transform_params]
        rfl
  · refine ⟨add_param_one ((dendrite_one ∘
        populate_one (setup_segment_groups cell.segment_groups))
        apical_group_new), ?_, ?_, ?_⟩
    · rw [processed_cell_groups, processed_groups_decomp]
      exact List.mem_append.mpr (Or.inr (List.mem_singleton.mpr rfl))
    · rw [add_param_one_id, transform_id]
      rfl
    · rw [add_param_one_params, transform_params]
      rfl
  · rw [processed_cell_biophys, h3]
    rfl
  · rw [processed_cell_biophys, h3]
    rfl
  · rw [processed_cell_biophys, h3]
    decide

/-- C2 witness: the pipeline on the example document. -/
theorem C2_witness :
    (∀ g ∈ (processed_cell "HL5PC" example_cell).segment_groups,
        g.inhomogeneous_parameters ≠ [] →
          g.id = "apical_dendrite_group" ∧
            g.inhomogeneous_parameters = [path_length_param]) ∧
    (∃ g ∈ (processed_cell "HL5PC" example_cell).segment_groups,
        g.id = "apical_dendrite_group" ∧
          g.inhomogeneous_parameters = [path_length_param]) ∧
    (processed_cell "HL5PC" example_cell).biophys.channel_density_non_uniforms
      = [Ih_nonuniform "apical_dendrite_group"] ∧
    (processed_cell "HL5PC"
        example_cell).biophys.channel_density_non_uniform_nernsts =
      [Ca_LVA_nonuniform "apical_dendrite_group",
        Ca_HVA_nonuniform "apical_dendrite_group"] ∧
    (∀ cd ∈ (processed_cell "HL5PC"
          example_cell).biophys.channel_density_non_uniforms ++
        (processed_cell "HL5PC"
          example_cell).biophys.channel_density_non_uniform_nernsts,
      ∀ vp ∈ cd.variable_parameters,
        vp.segment_groups = "apical_dendrite_group") :=
  C2_inhomogeneous_param_apical_only "HL5PC" example_doc example_out
    example_cell (processed_cell "HL5PC" example_cell) [] []
    rfl (by decide) rfl rfl rfl

/-- C6: after assembly the umbrella dendrite group exists and its
include list is exactly the apical group then the basal group, so its
membership is precisely the union of the apical and basal
memberships. -/
theorem C6_dendrite_group_union (cellname : String)
    (celldoc out : NeuroMLDocument) (cell outcell : Cell)
    (rest outrest : List Cell)
    (h1 : celldoc.cells = cell :: rest)
    (h4 : post_process_cell cellname celldoc = some out)
    (h5 : out.cells = outcell :: outrest) :
    (∃ g ∈ outcell.segment_groups, g.id = "dendrite_group") ∧
    (∀ g ∈ outcell.segment_groups, g.id = "dendrite_group" →
        g.includes =
          [⟨"apical_dendrite_group"⟩, ⟨"basal_dendrite_group"⟩]) := by
  have hout := post_process_cell_inv cellname celldoc out cell rest h1 h4
  subst hout
  dsimp only at h5
  injection h5 with hc hr
  subst hc
  constructor
  · rcases exists_id_foldl_add_if_missing default_group_specs
        cell.segment_groups ⟨"dendrite_group", "GO:0030425", "", [], []⟩
        (by decide) with ⟨x, hx, hid⟩
    refine ⟨(dendrite_one ∘
        populate_one (setup_segment_groups cell.segment_groups)) x, ?_, ?_⟩
    · rw [processed_cell_groups, processed_groups_decomp]
      exact List.mem_append.mpr (Or.inl (List.mem_append.mpr
        (Or.inl (List.mem_map_of_mem _ hx))))
    · rw [transform_id]
      exact hid
  · intro g hg hid
    rw [processed_cell_groups, processed_groups_decomp] at hg
    rcases List.mem_append.mp hg with hg | hg
    · rcases List.mem_append.mp hg with hg | hg
      · rcases List.mem_map.mp hg with ⟨x, hx, hfx⟩
        subst hfx
        have hyid : (populate_one (setup_segment_groups
            cell.segment_groups) x).id = "dendrite_group" := by
          rw [← dendrite_one_id]
          exact hid
        exact dendrite_one_includes_of_id hyid
      · have hgb := List.mem_singleton.mp hg
        subst hgb
        rw [transform_id] at hid
        exact absurd hid (by decide)
    · have hga := List.mem_singleton.mp hg
      subst hga
      rw [add_param_one_id, transform_id] at hid
      exact absurd hid (by decide)

/-- C6 witness: the pipeline on the example document. -/
theorem C6_witness :
    (∃ g ∈ (processed_cell "HL5PC" example_cell).segment_groups,
        g.id = "dendrite_group") ∧
    (∀ g ∈ (processed_cell "HL5PC" example_cell).segment_groups,
        g.id = "dendrite_group" →
          g.includes =
            [⟨"apical_dendrite_group"⟩, ⟨"basal_dendrite_group"⟩]) :=
  C6_dendrite_group_union "HL5PC" example_doc example_out example_cell
    (processed_cell "HL5PC" example_cell) [] [] rfl rfl rfl

/-- C7: loading the written document back (write-then-load modelled as
the identity per the spec's trusted serializer boundary) and
re-extracting the (soma, NaTa_t) uniform descriptor returns exactly the
literals supplied during assembly: conductance density
`"2.1 S_per_cm2"` and reversal potential `"50 mV"`. -/
theorem C7_roundtrip_literals (cellname : String)
    (celldoc out : NeuroMLDocument) (cell loadedcell : Cell)
    (rest loadedrest : List Cell)
    (h1 : celldoc.cells = cell :: rest)
    (h2 : cell.biophys = empty_biophys)
    (h4 : post_process_cell cellname celldoc = some out)
    (h5 : (write_then_load out).cells = loadedcell :: loadedrest) :
    find_channel_density loadedcell "soma_group" "NaTa_t" =
      some ⟨"NaTa_t_somatic", "NaTa_t", "2.1 S_per_cm2", "50 mV",
        "soma_group", "na", "channels/NaTa_t.channel.nml"⟩ ∧
    (find_channel_density loadedcell "soma_group" "NaTa_t").map
        ChannelDensity.cond_density = some "2.1 S_per_cm2" ∧
    (find_channel_density loadedcell "soma_group" "NaTa_t").map
        ChannelDensity.erev = some "50 mV" := by
  have hout := post_process_cell_inv cellname celldoc out cell rest h1 h4
  subst hout
  dsimp only [write_then_load] at h5
  injection h5 with hc hr
  subst hc
  unfold find_channel_density
  rw [processed_cell_biophys, h2]
  refine ⟨?_, ?_, ?_⟩ <;> decide

/-- C7 witness: the round trip on the example document. -/
theorem C7_witness :
    find_channel_density (processed_cell "HL5PC" example_cell)
        "soma_group" "NaTa_t" =
      some ⟨"NaTa_t_somatic", "NaTa_t", "2.1 S_per_cm2", "50 mV",
        "soma_group", "na", "channels/NaTa_t.channel.nml"⟩ ∧
    (find_channel_density (processed_cell "HL5PC" example_cell)
        "soma_group" "NaTa_t").map ChannelDensity.cond_density =
      some "2.1 S_per_cm2" ∧
    (find_channel_density (processed_cell "HL5PC" example_cell)
        "soma_group" "NaTa_t").map ChannelDensity.erev = some "50 mV" :=
  C7_roundtrip_literals "HL5PC" example_doc example_out example_cell
    (processed_cell "HL5PC" example_cell) [] [] rfl rfl rfl rfl

/-- C9: beyond classification and property attachment, the pipeline
clears the document's networks, overwrites the cell's id with the
supplied name, appends the fixed literature-reference string to the
cell's notes, and leaves the other loaded content (remaining morphology,
further cells, file-level content) unchanged apart from the assembled
additions, which are appends. -/
theorem C9_frame_effects (cellname : String)
    (celldoc out : NeuroMLDocument) (cell outcell : Cell)
    (rest outrest : List Cell)
    (h1 : celldoc.cells = cell :: rest)
    (h4 : post_process_cell cellname celldoc = some out)
    (h5 : out.cells = outcell :: outrest) :
    out.networks = [] ∧
    outcell.id = cellname ∧
    outcell.notes = cell.notes ++ reference_note ∧
    outcell.other_morphology = cell.other_morphology ∧
    outcell.biophys = assemble_biophys "apical_dendrite_group" cell.biophys ∧
    outrest = rest ∧
    out.includes = celldoc.includes ++ assembled_includes ∧
    out.other_content = celldoc.other_content := by
  have hout := post_process_cell_inv cellname celldoc out cell rest h1 h4
  subst hout
  dsimp only at h5
  injection h5 with hc hr
  subst hc
  exact ⟨rfl, rfl, rfl, rfl, processed_cell_biophys cellname cell,
    hr.symm, rfl, rfl⟩

/-- C9 witness: the frame effects on the example document. -/
theorem C9_witness :
    example_out.networks = [] ∧
    (processed_cell "HL5PC" example_cell).id = "HL5PC" ∧
    (processed_cell "HL5PC" example_cell).notes =
      example_cell.notes ++ reference_note ∧
    (processed_cell "HL5PC" example_cell).other_morphology =
      example_cell.other_morphology ∧
    (processed_cell "HL5PC" example_cell).biophys =
      assemble_biophys "apical_dendrite_group" example_cell.biophys ∧
    ([] : List Cell) = [] ∧
    example_out.includes = example_doc.includes ++ assembled_includes ∧
    example_out.other_content = example_doc.other_content :=
  C9_frame_effects "HL5PC" example_doc example_out example_cell
    (processed_cell "HL5PC" example_cell) [] [] rfl rfl rfl

/-- C10: among the four primary regions, the axon group receives no
channel-density descriptor of any kind; the basal group receives exactly
one, Ih_basal, whose conductance density `"5.135E-05 S_per_cm2"` and
reversal potential `"-49.85 mV"` equal the somatic Ih literals; and
every other descriptor targets the all, soma, or apical group. -/
theorem C10_descriptor_targets (cellname : String)
    (celldoc out : NeuroMLDocument) (cell outcell : Cell)
    (rest outrest : List Cell)
    (h1 : celldoc.cells = cell :: rest)
    (h2 : cell.biophys = empty_biophys)
    (h4 : post_process_cell cellname celldoc = some out)
    (h5 : out.cells = outcell :: outrest) :
    (∀ cd ∈ outcell.biophys.channel_densities,
        cd.group_id ≠ "axon_group") ∧
    (∀ cd ∈ outcell.biophys.channel_density_nernsts,
        cd.segment_groups ≠ "axon_group") ∧
    (∀ cd ∈ outcell.biophys.channel_density_non_uniforms ++
        outcell.biophys.channel_density_non_uniform_nernsts,
      ∀ vp ∈ cd.variable_parameters,
        vp.segment_groups ≠ "axon_group") ∧
    outcell.biophys.channel_densities.filter
        (fun cd => cd.group_id == "basal_dendrite_group") =
      [⟨"Ih_basal", "Ih", "5.135E-05 S_per_cm2", "-49.85 mV",
        "basal_dendrite_group", "hcn", "channels/Ih.channel.nml"⟩] ∧
    outcell.biophys.channel_density_nernsts.filter
        (fun cd => cd.segment_groups == "basal_dendrite_group") = [] ∧
    (outcell.biophys.channel_density_non_uniforms ++
        outcell.biophys.channel_density_non_uniform_nernsts).filter
        (fun cd => cd.variable_parameters.any
          (fun vp => vp.segment_groups == "basal_dendrite_group")) = [] ∧
    (∃ cd ∈ outcell.biophys.channel_densities,
        cd.id = "Ih_somatic" ∧ cd.group_id = "soma_group" ∧
          cd.cond_density = "5.135E-05 S_per_cm2" ∧
          cd.erev = "-49.85 mV") ∧
    (∀ cd ∈ outcell.biophys.channel_densities, cd.id ≠ "Ih_basal" →
        cd.group_id = "all" ∨ cd.group_id = "soma_group" ∨
          cd.group_id = "apical_dendrite_group") ∧
    (∀ cd ∈ outcell.biophys.channel_density_nernsts,
        cd.segment_groups = "soma_group") ∧
    (∀ cd ∈ outcell.biophys.channel_density_non_uniforms ++
        outcell.biophys.channel_density_non_uniform_nernsts,
      ∀ vp ∈ cd.variable_parameters,
        vp.segment_groups = "apical_dendrite_group") := by
  have hout := post_process_cell_inv cellname celldoc out cell rest h1 h4
  subst hout
  dsimp only at h5
  injection h5 with hc hr
  subst hc
  rw [processed_cell_biophys, h2]
  decide

/-- C10 witness: the descriptor targets on the example document. -/
theorem C10_witness :
    (∀ cd ∈ (processed_cell "HL5PC" example_cell).biophys.channel_densities,
        cd.group_id ≠ "axon_group") ∧
    (∀ cd ∈ (processed_cell "HL5PC"
          example_cell).biophys.channel_density_nernsts,
        cd.segment_groups ≠ "axon_group") ∧
    (∀ cd ∈ (processed_cell "HL5PC"
          example_cell).biophys.channel_density_non_uniforms ++
        (processed_cell "HL5PC"
          example_cell).biophys.channel_density_non_uniform_nernsts,
      ∀ vp ∈ cd.variable_parameters,
        vp.segment_groups ≠ "axon_group") ∧
    (processed_cell "HL5PC" example_cell).biophys.channel_densities.filter
        (fun cd => cd.group_id == "basal_dendrite_group") =
      [⟨"Ih_basal", "Ih", "5.135E-05 S_per_cm2", "-49.85 mV",
        "basal_dendrite_group", "hcn", "channels/Ih.channel.nml"⟩] ∧
    (processed_cell "HL5PC"
        example_cell).biophys.channel_density_nernsts.filter
        (fun cd => cd.segment_groups == "basal_dendrite_group") = [] ∧
    ((processed_cell "HL5PC"
          example_cell).biophys.channel_density_non_uniforms ++
        (processed_cell "HL5PC"
          example_cell).biophys.channel_density_non_uniform_nernsts).filter
        (fun cd => cd.variable_parameters.any
          (fun vp => vp.segment_groups == "basal_dendrite_group")) = [] ∧
    (∃ cd ∈ (processed_cell "HL5PC" example_cell).biophys.channel_densities,
        cd.id = "Ih_somatic" ∧ cd.group_id = "soma_group" ∧
          cd.cond_density = "5.135E-05 S_per_cm2" ∧
          cd.erev = "-49.85 mV") ∧
    (∀ cd ∈ (processed_cell "HL5PC" example_cell).biophys.channel_densities,
        cd.id ≠ "Ih_basal" →
          cd.group_id = "all" ∨ cd.group_id = "soma_group" ∨
            cd.group_id = "apical_dendrite_group") ∧
    (∀ cd ∈ (processed_cell "HL5PC"
          example_cell).biophys.channel_density_nernsts,
        cd.segment_groups = "soma_group") ∧
    (∀ cd ∈ (processed_cell "HL5PC"
          example_cell).biophys.channel_density_non_uniforms ++
        (processed_cell "HL5PC"
          example_cell).biophys.channel_density_non_uniform_nernsts,
      ∀ vp ∈ cd.variable_parameters,
        vp.segment_groups = "apical_dendrite_group") :=
  C10_descriptor_targets "HL5PC" example_doc example_out example_cell
    (processed_cell "HL5PC" example_cell) [] [] rfl rfl rfl rfl

end HumanL5
